import Mathlib

/-!
Shallow embedding of the flexprice load-generation scripts
(`scripts/local/flexprice_ingest.py` and
`scripts/local/clickhouse_query_load.py`).

Conventions of the embedding:
* HTTP responses and query executions are oracles supplied as functions
  (the API endpoint and the analytics store are external collaborators).
* Durations (backoff, poll interval) are rationals measured in seconds,
  since Python multiplies the backoff float by 2, which is exact.
* Side effects (log lines, sleeps, task submission) are reified as
  values or action traces so that theorems can speak about them.
-/

/-- Outcome of one `requests.post` call inside `post_event`: either an HTTP
response carrying a status code and a body text, or a raised exception
carrying its message (network error, timeout, ...). -/
inductive AttemptResult where
  | status (code : Nat) (text : String)
  | exn (msg : String)
deriving DecidableEq

/-- The log lines `post_event` can emit, mirroring its three f-strings. -/
inductive LogLine where
  | ingestSuccess (eventId : String)
  | unexpectedStatus (code : Nat) (text : String)
  | postException (msg : String)
deriving DecidableEq

/-- Rendering of a `LogLine` to the message string exactly as the Python
f-strings build it. -/
def renderLog : LogLine → String
  | .ingestSuccess eventId => "Event ingested successfully: " ++ eventId
  | .unexpectedStatus code text =>
      "Unexpected status code: " ++ toString code ++ " - " ++ text
  | .postException msg => "Failed to post event: " ++ msg

/-- Whether the string `msg` contains the string `eventId` as a contiguous
substring (used to state which log lines mention the event identifier). -/
def mentionsId (eventId msg : String) : Bool :=
  msg.data.tails.any (fun t => eventId.data.isPrefixOf t)

/-- Observable result of one `post_event` call: the returned boolean, the
number of `requests.post` calls issued, the backoff durations slept (in
order, in seconds), and the log lines emitted (in order). -/
structure PostResult where
  success : Bool
  attempts : Nat
  sleeps : List ℚ
  logs : List LogLine
deriving DecidableEq

/-- `MAX_RETRIES` constant of `flexprice_ingest.py`. -/
def MAX_RETRIES : Nat := 1

/-- `INITIAL_BACKOFF` constant of `flexprice_ingest.py` (0.1 seconds). -/
def INITIAL_BACKOFF : ℚ := 1 / 10

/-- One iteration structure of the `while retries <= MAX_RETRIES` loop of
`post_event`.  `fuel = MAX_RETRIES + 1 - retries` counts the remaining
iterations the guard allows (`retries` increases by one exactly when the
loop continues, so the loop guard `retries <= MAX_RETRIES` is `fuel > 0`).
`attempt` numbers the `requests.post` calls so the response oracle can
vary per attempt; `backoff` is the current backoff duration.
Branches, in source order:
* status 202: log success, return `True`;
* status in `[429, 500]`: sleep `backoff`, double it, continue;
* any other status: log the unexpected status, return `False`;
* exception: log the failure, sleep `backoff`, double it, continue.
Falling out of the loop returns `False` with no further log line. -/
def postEventLoop (responses : Nat → AttemptResult) (eventId : String) :
    Nat → Nat → ℚ → PostResult
  | 0, _, _ => ⟨false, 0, [], []⟩
  | fuel + 1, attempt, backoff =>
    match responses attempt with
    | .status code text =>
      if code = 202 then
        ⟨true, 1, [], [LogLine.ingestSuccess eventId]⟩
      else if code = 429 ∨ code = 500 then
        let r := postEventLoop responses eventId fuel (attempt + 1) (2 * backoff)
        ⟨r.success, r.attempts + 1, backoff :: r.sleeps, r.logs⟩
      else
        ⟨false, 1, [], [LogLine.unexpectedStatus code text]⟩
    | .exn msg =>
      let r := postEventLoop responses eventId fuel (attempt + 1) (2 * backoff)
      ⟨r.success, r.attempts + 1, backoff :: r.sleeps,
        LogLine.postException msg :: r.logs⟩

/-- `post_event` of `flexprice_ingest.py`, parameterised by the response
oracle, the event identifier (the only part of the event the control flow
reads), the retry budget and the initial backoff.  The Python loop starts
with `retries = 0`, so it admits `maxRetries + 1` iterations. -/
def post_event (responses : Nat → AttemptResult) (eventId : String)
    (maxRetries : Nat) (initialBackoff : ℚ) : PostResult :=
  postEventLoop responses eventId (maxRetries + 1) 0 initialBackoff

/-- The `properties` dict of a generated event. -/
structure EventProperties where
  bytes_transferred : Nat
  duration_ms : Nat
  status_code : Nat
  test_group : String
deriving DecidableEq

/-- A generated event, mirroring the dict returned by `generate_event`. -/
structure Event where
  event_id : String
  event_name : String
  external_customer_id : String
  source : String
  properties : EventProperties
deriving DecidableEq

/-- The `sources` list local to `generate_event`. -/
def sources : List String := ["web", "mobile"]

/-- The `event_types` list local to `generate_event`. -/
def event_types : List String := ["gpu_time"]

/-- `generate_event` of `flexprice_ingest.py`.  The freshly generated
`uuid4()` value is the `uuid` parameter; every other field is computed
from `index` alone.  List indexing uses `index % length`, which is always
in range since both lists are nonempty, so the `getD` default is never
hit. -/
def generate_event (uuid : String) (index : Nat) : Event where
  event_id := uuid
  event_name := event_types.getD (index % event_types.length) ""
  external_customer_id := "cus_loadtest_5"
  source := sources.getD (index % sources.length) ""
  properties :=
    { bytes_transferred := 100 + index % 1000
      duration_ms := 50 + index % 200
      status_code := 200 + (index % 3) * 100
      test_group := "group_" ++ toString (index % 10) }

/-- `NUM_EVENTS` constant of `flexprice_ingest.py`. -/
def NUM_EVENTS : Nat := 1000000

/-- `BATCH_SIZE` constant of `flexprice_ingest.py`. -/
def BATCH_SIZE : Nat := 150

/-- `REQUESTS_PER_SEC` constant of `flexprice_ingest.py` (worker-pool size). -/
def REQUESTS_PER_SEC : Nat := 150

/-- Python `range(0, stop, step)` for `step > 0`: the multiples of `step`
below `stop`, of which there are `⌈stop / step⌉ = (stop + step - 1) / step`. -/
def pyRange (stop step : Nat) : List Nat :=
  (List.range ((stop + step - 1) / step)).map (fun j => j * step)

/-- The batches of event indices the scheduler builds: for each start `i`
in `range(0, N, B)` the batch is `range(i, min(i + B, N))`, embedded as
`List.range' i (min (i + B) N - i)`. -/
def batches (N B : Nat) : List (List Nat) :=
  (pyRange N B).map (fun i => List.range' i (min (i + B) N - i))

/-- Actions of the batch scheduler `seed_events_clickhouse`, in program
order.  `submitBatch ixs` stands for `executor.map(post_event, batch)`:
it hands one task per event to the worker pool and returns at once
(the result iterator is dropped, so nothing waits on the futures).
`joinAll` is the implicit `ThreadPoolExecutor.__exit__` at the end of the
`with` block, which blocks until every submitted task has finished. -/
inductive SchedAction where
  | logMsg (msg : String)
  | submitBatch (indices : List Nat)
  | sleepSec (secs : Nat)
  | joinAll
deriving DecidableEq

/-- `seed_events_clickhouse` of `flexprice_ingest.py` as the trace of
scheduler actions it performs, with the event count and batch size as
parameters (`NUM_EVENTS` and `BATCH_SIZE` in the source). -/
def seed_events_clickhouse (N B : Nat) : List SchedAction :=
  SchedAction.logMsg "Starting event ingestion..." ::
    ((batches N B).map
        (fun b => [SchedAction.submitBatch b, SchedAction.sleepSec 1])).flatten ++
    [SchedAction.joinAll, SchedAction.logMsg "Event ingestion completed"]

/-- `QUERY_INTERVAL` constant of `clickhouse_query_load.py` (0.01 seconds). -/
def QUERY_INTERVAL : ℚ := 1 / 100

/-- Actions of the monitor loop, in program order: a `logger.info` of a
query result, the `logger.error` of the catch-all handler, and the
`time.sleep(QUERY_INTERVAL)` at the bottom of the loop body. -/
inductive MonAction where
  | logResult (queryIdx : Nat) (msg : String)
  | logError (msg : String)
  | sleep (interval : ℚ)
deriving DecidableEq

/-- The log-message labels of the five aggregate queries, in the order the
loop body executes them: storage sum/count of `bytes_transferred`,
per-minute ingestion lag, duration sums grouped by tenant/customer/event
name, event count filtered by event name, and duration avg/max. -/
def queryLabels : List String :=
  ["Storage Query Result: ", "Ingestion Lag Query Result: ",
   "Other Query Result: ", "Other Query Result: ", "Duration Query Result: "]

/-- Executing the query sequence of one cycle starting from query index
`q` with `fuel` queries left.  `res q` is the oracle for the `q`-th query
of this cycle: `.ok s` means the query (and the rendering of its result
rows) produced the string `s` to log; `.error e` means it raised an
exception with message `e`, which aborts the rest of the `try` block and
is logged by the `except` handler. -/
def runQueriesFrom (res : Nat → Except String String) :
    Nat → Nat → List MonAction
  | _, 0 => []
  | q, fuel + 1 =>
    match res q with
    | .ok s =>
        MonAction.logResult q (queryLabels.getD q "" ++ s) ::
          runQueriesFrom res (q + 1) fuel
    | .error e => [MonAction.logError ("Failed to execute queries: " ++ e)]

/-- One iteration of the monitor's `while True` body: the five queries in
order under `try`/`except`, then the unconditional sleep. -/
def monitorCycle (res : Nat → Except String String) : List MonAction :=
  runQueriesFrom res 0 5 ++ [MonAction.sleep QUERY_INTERVAL]

/-- The first `n` cycles of `monitor_queries` of `clickhouse_query_load.py`
(the source loop is unbounded; theorems quantify over `n`).
`res c q` is the oracle outcome of query `q` in cycle `c`. -/
def monitor_queries (res : Nat → Nat → Except String String) : Nat → List MonAction
  | 0 => []
  | n + 1 => monitor_queries res n ++ monitorCycle (res n)

/-- Recogniser for sleep actions of the monitor trace. -/
def isSleep : MonAction → Bool
  | .sleep _ => true
  | _ => false

/-- Recogniser for error-log actions of the monitor trace. -/
def isLogError : MonAction → Bool
  | .logError _ => true
  | _ => false

/-- Recogniser for result-log actions of the monitor trace. -/
def isLogResult : MonAction → Bool
  | .logResult _ _ => true
  | _ => false

/-- Recogniser for batch submissions of the scheduler trace. -/
def isSubmit : SchedAction → Bool
  | .submitBatch _ => true
  | _ => false

/-- Recogniser for the executor-shutdown join of the scheduler trace. -/
def isJoin : SchedAction → Bool
  | .joinAll => true
  | _ => false

lemma postEventLoop_const_retry (s : Nat) (text eventId : String)
    (hs : s = 429 ∨ s = 500) (fuel : Nat) : ∀ (a : Nat) (b : ℚ),
    postEventLoop (fun _ => AttemptResult.status s text) eventId fuel a b =
      ⟨false, fuel, (List.range fuel).map (fun k => 2 ^ k * b), []⟩ := by
  induction fuel with
  | zero => intro a b; rfl
  | succ fuel ih =>
    intro a b
    have hne : s ≠ 202 := by rcases hs with h | h <;> omega
    have hmap : ((fun k : Nat => 2 ^ k * b) ∘ Nat.succ) =
        (fun k : Nat => 2 ^ k * (2 * b)) := by
      funext k
      simp [Function.comp]
      ring
    simp only [postEventLoop, if_neg hne, if_pos hs, ih (a + 1) (2 * b)]
    simp [List.range_succ_eq_map, List.map_map, hmap]

lemma postEventLoop_const_exn (m eventId : String) (fuel : Nat) :
    ∀ (a : Nat) (b : ℚ),
    postEventLoop (fun _ => AttemptResult.exn m) eventId fuel a b =
      ⟨false, fuel, (List.range fuel).map (fun k => 2 ^ k * b),
        List.replicate fuel (LogLine.postException m)⟩ := by
  induction fuel with
  | zero => intro a b; rfl
  | succ fuel ih =>
    intro a b
    have hmap : ((fun k : Nat => 2 ^ k * b) ∘ Nat.succ) =
        (fun k : Nat => 2 ^ k * (2 * b)) := by
      funext k
      simp [Function.comp]
      ring
    simp only [postEventLoop, ih (a + 1) (2 * b)]
    simp [List.range_succ_eq_map, List.map_map, hmap, List.replicate_succ]

lemma post_event_const_status (s : Nat) (text eventId : String)
    (mr : Nat) (b : ℚ) :
    post_event (fun _ => AttemptResult.status s text) eventId mr b =
      if s = 202 then ⟨true, 1, [], [LogLine.ingestSuccess eventId]⟩
      else if s = 429 ∨ s = 500 then
        ⟨false, mr + 1, (List.range (mr + 1)).map (fun k => 2 ^ k * b), []⟩
      else ⟨false, 1, [], [LogLine.unexpectedStatus s text]⟩ := by
  by_cases h202 : s = 202
  · simp [post_event, postEventLoop, h202]
  · by_cases hretry : s = 429 ∨ s = 500
    · rw [if_neg h202, if_pos hretry]
      exact postEventLoop_const_retry s text eventId hretry (mr + 1) 0 b
    · simp [post_event, postEventLoop, h202, hretry]

/-- C1 (counterexample): the claim says the Poster accepts every 2xx status
and retries every 5xx status.  On the code, status 200 (a 2xx) and status
503 (a 5xx) both fall into the final `else` branch of `post_event`: one
single attempt, terminal failure, an "unexpected status" log, no retry. -/
theorem post_event_2xx_5xx_cex :
    post_event (fun _ => AttemptResult.status 200 "OK") "evt-1"
        MAX_RETRIES INITIAL_BACKOFF =
      ⟨false, 1, [], [LogLine.unexpectedStatus 200 "OK"]⟩ ∧
    post_event (fun _ => AttemptResult.status 503 "unavailable") "evt-1"
        MAX_RETRIES INITIAL_BACKOFF =
      ⟨false, 1, [], [LogLine.unexpectedStatus 503 "unavailable"]⟩ := by
  exact ⟨rfl, rfl⟩

/-- C1 (amended): for every status `s`, the Poster classifies the outcome
as accepted (terminal success, one attempt) if and only if `s = 202`;
as retryable (retried until the budget is exhausted, then terminal
failure) if and only if `s = 429` or `s = 500`; and as terminal rejected
failure (one attempt, logged, not retried) for every other status —
including 2xx statuses other than 202 and 5xx statuses other than 500. -/
theorem post_event_classification (s : Nat) (text eventId : String)
    (mr : Nat) (b : ℚ) :
    post_event (fun _ => AttemptResult.status s text) eventId mr b =
      if s = 202 then ⟨true, 1, [], [LogLine.ingestSuccess eventId]⟩
      else if s = 429 ∨ s = 500 then
        ⟨false, mr + 1, (List.range (mr + 1)).map (fun k => 2 ^ k * b), []⟩
      else ⟨false, 1, [], [LogLine.unexpectedStatus s text]⟩ :=
  post_event_const_status s text eventId mr b

/-- C5: if every attempt returns a retryable status (429 or 500), the
Poster makes exactly `maxRetries + 1` attempts and reports terminal
failure (`success = false`); the backoff durations slept are
`b, 2*b, 4*b, ...`, i.e. the sleep preceding re-attempt `k` is
`initialBackoff * 2 ^ (k - 1)` (the code also sleeps once more after the
final failed attempt before the loop guard fails).  With the source
defaults (`MAX_RETRIES = 1`, `INITIAL_BACKOFF = 0.1 s`) this is 2 total
attempts with a 100 ms sleep before the single re-attempt. -/
theorem post_event_retry_exhaustion (s : Nat) (hs : s = 429 ∨ s = 500)
    (text eventId : String) (mr : Nat) (b : ℚ) :
    post_event (fun _ => AttemptResult.status s text) eventId mr b =
      ⟨false, mr + 1, (List.range (mr + 1)).map (fun k => 2 ^ k * b), []⟩ :=
  postEventLoop_const_retry s text eventId hs (mr + 1) 0 b

/-- C5 (witness): the always-500 Poster with the source defaults makes
exactly 2 attempts, fails, and sleeps 0.1 s then 0.2 s. -/
theorem post_event_retry_exhaustion_witness :
    post_event (fun _ => AttemptResult.status 500 "err") "evt-1"
        MAX_RETRIES INITIAL_BACKOFF =
      ⟨false, 2, [1 / 10, 1 / 5], []⟩ := by
  have h := post_event_retry_exhaustion 500 (Or.inr rfl) "err" "evt-1"
    MAX_RETRIES INITIAL_BACKOFF
  rw [h]
  norm_num [MAX_RETRIES, INITIAL_BACKOFF, List.range_succ]

/-- C6: if the first attempt returns a status that is neither 202 nor one
of the retryable statuses 429 and 500 (e.g. 400), the Poster issues
exactly one request and returns terminal failure immediately: no retry,
no backoff sleep, one rejection log line — whatever the remaining retry
budget and whatever later attempts would have returned. -/
theorem post_event_reject_immediate (responses : Nat → AttemptResult)
    (s : Nat) (text eventId : String) (mr : Nat) (b : ℚ)
    (hresp : responses 0 = AttemptResult.status s text)
    (h202 : s ≠ 202) (h429 : s ≠ 429) (h500 : s ≠ 500) :
    post_event responses eventId mr b =
      ⟨false, 1, [], [LogLine.unexpectedStatus s text]⟩ := by
  simp [post_event, postEventLoop, hresp, h202, h429, h500]

/-- C6 (witness): a first-attempt 400 yields one attempt, no sleep, and
immediate terminal failure, at the source defaults. -/
theorem post_event_reject_immediate_witness :
    post_event (fun _ => AttemptResult.status 400 "bad request") "evt-1"
        MAX_RETRIES INITIAL_BACKOFF =
      ⟨false, 1, [], [LogLine.unexpectedStatus 400 "bad request"]⟩ :=
  post_event_reject_immediate (fun _ => AttemptResult.status 400 "bad request")
    400 "bad request" "evt-1" MAX_RETRIES INITIAL_BACKOFF rfl
    (by decide) (by decide) (by decide)

/-- C3 (counterexample): the claim says every terminal outcome is logged
with the event identifier; in particular retry-budget exhaustion is
logged with the identifier and final status.  On the code, an always-500
event at the defaults ends in terminal failure with NO log line at all,
and a 400 rejection is logged without the event identifier (the rendered
message has no occurrence of the identifier `evt-1`). -/
theorem post_event_logging_cex :
    (post_event (fun _ => AttemptResult.status 500 "err") "evt-1"
        MAX_RETRIES INITIAL_BACKOFF).success = false ∧
    (post_event (fun _ => AttemptResult.status 500 "err") "evt-1"
        MAX_RETRIES INITIAL_BACKOFF).logs = [] ∧
    (post_event (fun _ => AttemptResult.status 400 "Bad Request") "evt-1"
        MAX_RETRIES INITIAL_BACKOFF).logs =
      [LogLine.unexpectedStatus 400 "Bad Request"] ∧
    mentionsId "evt-1" (renderLog (LogLine.unexpectedStatus 400 "Bad Request")) =
      false := by
  refine ⟨rfl, rfl, rfl, ?_⟩
  decide

/-- C3 (amended): on a 202 the Poster logs exactly one line, containing
the event identifier ("Event ingested successfully: " ++ id); on a
non-retryable status it logs exactly one line containing the status code
and response text but built without the event identifier; when the retry
budget is exhausted by retryable statuses it returns terminal failure
without emitting any log line; each caught exception logs one line with
the exception message (so an exception-exhausted event produces
`maxRetries + 1` such lines, none marking the terminal outcome). -/
theorem post_event_logging (s : Nat) (text eventId m : String)
    (mr : Nat) (b : ℚ) :
    (post_event (fun _ => AttemptResult.status s text) eventId mr b).logs =
      (if s = 202 then [LogLine.ingestSuccess eventId]
       else if s = 429 ∨ s = 500 then []
       else [LogLine.unexpectedStatus s text]) ∧
    (post_event (fun _ => AttemptResult.exn m) eventId mr b).logs =
      List.replicate (mr + 1) (LogLine.postException m) ∧
    renderLog (LogLine.ingestSuccess eventId) =
      "Event ingested successfully: " ++ eventId ∧
    mentionsId eventId (renderLog (LogLine.ingestSuccess eventId)) = true ∧
    renderLog (LogLine.unexpectedStatus s text) =
      "Unexpected status code: " ++ toString s ++ " - " ++ text := by
  refine ⟨?_, ?_, rfl, ?_, rfl⟩
  · rw [post_event_const_status s text eventId mr b]
    split_ifs <;> rfl
  · rw [post_event, postEventLoop_const_exn m eventId (mr + 1) 0 b]
  · refine List.any_eq_true.mpr ⟨eventId.data, ?_, ?_⟩
    · refine (List.mem_tails _ _).mpr ?_
      show eventId.data <:+ ("Event ingested successfully: " ++ eventId).data
      rw [String.data_append]
      exact List.suffix_append _ _
    · exact List.isPrefixOf_iff_prefix.mpr (List.prefix_refl _)

lemma batches_eq (N B : Nat) : batches N B =
    (List.range ((N + B - 1) / B)).map
      (fun j => List.range' (j * B) (min (j * B + B) N - j * B)) := by
  simp [batches, pyRange, List.map_map, Function.comp]

lemma batches_length (N B : Nat) : (batches N B).length = (N + B - 1) / B := by
  rw [batches_eq]
  simp

lemma ceil_mul_ge (N B : Nat) (hB : 0 < B) : N ≤ ((N + B - 1) / B) * B := by
  have h := Nat.div_add_mod' (N + B - 1) B
  have h2 : (N + B - 1) % B < B := Nat.mod_lt _ hB
  omega

lemma ceil_pred_mul_lt (N B : Nat) (hN : 0 < N) (hB : 0 < B) :
    (((N + B - 1) / B) - 1) * B < N := by
  have h := Nat.div_add_mod' (N + B - 1) B
  have h2 : (N + B - 1) % B < B := Nat.mod_lt _ hB
  have h3 : (((N + B - 1) / B) - 1) * B = ((N + B - 1) / B) * B - B := by
    rw [Nat.sub_mul, Nat.one_mul]
  omega

lemma batch_sizes_sum_range (N B : Nat) : ∀ k : Nat,
    ((List.range k).map (fun j => min (j * B + B) N - j * B)).sum = min (k * B) N := by
  intro k
  induction k with
  | zero => simp
  | succ k ih =>
    rw [List.range_succ, List.map_append, List.sum_append, ih]
    simp only [List.map_cons, List.map_nil, List.sum_cons, List.sum_nil]
    have h1 : (k + 1) * B = k * B + B := by ring
    rw [h1]
    omega

lemma batch_flatten_range (N B : Nat) : ∀ k : Nat,
    ((List.range k).map
        (fun j => List.range' (j * B) (min (j * B + B) N - j * B))).flatten =
      List.range' 0 (min (k * B) N) := by
  intro k
  induction k with
  | zero => simp
  | succ k ih =>
    rw [List.range_succ, List.map_append, List.flatten_append, ih]
    simp only [List.map_cons, List.map_nil, List.flatten_cons, List.flatten_nil,
      List.append_nil]
    have h1 : (k + 1) * B = k * B + B := by ring
    by_cases hk : k * B ≤ N
    · have hm : min (k * B) N = k * B := Nat.min_eq_left hk
      rw [hm]
      have happ := List.range'_append 0 (k * B) (min (k * B + B) N - k * B) 1
      simp only [Nat.one_mul, Nat.zero_add] at happ
      rw [happ]
      congr 1
      omega
    · have h0 : min (k * B + B) N - k * B = 0 := by omega
      rw [h0]
      simp only [List.range'_zero, List.append_nil]
      congr 1
      omega

lemma countP_submit_flatten : ∀ l : List (List Nat),
    ((l.map (fun b =>
        [SchedAction.submitBatch b, SchedAction.sleepSec 1])).flatten).countP
      isSubmit = l.length := by
  intro l
  induction l with
  | nil => rfl
  | cons x xs ih =>
    simp only [List.map_cons, List.flatten_cons, List.countP_cons, List.countP_append, ih]
    simp [List.countP_cons, isSubmit]
    omega

lemma countP_join_flatten : ∀ l : List (List Nat),
    ((l.map (fun b =>
        [SchedAction.submitBatch b, SchedAction.sleepSec 1])).flatten).countP
      isJoin = 0 := by
  intro l
  induction l with
  | nil => rfl
  | cons x xs ih =>
    simp only [List.map_cons, List.flatten_cons, List.countP_append, ih]
    simp [List.countP_cons, isJoin]

lemma last_batch_size (N B : Nat) (hN : 0 < N) (hB : 0 < B) (hnd : ¬ B ∣ N) :
    min ((((N + B - 1) / B) - 1) * B + B) N - (((N + B - 1) / B) - 1) * B =
      N % B := by
  have hc : (N + B - 1) / B = (N - 1) / B + 1 := by
    have he : N + B - 1 = (N - 1) + B := by omega
    rw [he, Nat.add_div_right _ hB]
  rw [hc]
  simp only [Nat.add_sub_cancel]
  have h4 := Nat.div_add_mod' (N - 1) B
  have h5 : (N - 1) % B < B := Nat.mod_lt _ hB
  by_cases hs : (N - 1) % B + 1 < B
  · have hNeq : N = (N - 1) / B * B + ((N - 1) % B + 1) := by omega
    have hmod : N % B = (N - 1) % B + 1 := by
      conv_lhs => rw [hNeq]
      rw [Nat.mul_comm, Nat.mul_add_mod]
      exact Nat.mod_eq_of_lt hs
    rw [hmod]
    omega
  · exfalso
    apply hnd
    have hNeq : N = (N - 1) / B * B + B := by omega
    refine ⟨(N - 1) / B + 1, ?_⟩
    have hr : B * ((N - 1) / B + 1) = (N - 1) / B * B + B := by ring
    omega

/-- C4: for positive `N` and `B` the scheduler dispatches exactly
`⌈N / B⌉ = (N + B - 1) / B` batches of consecutive indices covering
`[0, N)`: that many `submitBatch` actions appear in the trace, every
batch has size at most `B`, the batch sizes sum to `N`, the batches
concatenate to `0, 1, ..., N - 1` in order, every batch except possibly
the last has size exactly `B`, and when `B` does not divide `N` the last
batch has size `N % B`. -/
theorem scheduler_batch_partition (N B : Nat) (hN : 0 < N) (hB : 0 < B) :
    (batches N B).length = (N + B - 1) / B ∧
    (seed_events_clickhouse N B).countP isSubmit = (N + B - 1) / B ∧
    (∀ b ∈ batches N B, b.length ≤ B) ∧
    ((batches N B).map List.length).sum = N ∧
    (batches N B).flatten = List.range N ∧
    (∀ j, j + 1 < (batches N B).length →
      ((batches N B).getD j []).length = B) ∧
    (¬ B ∣ N → ((batches N B).getLast?).map List.length = some (N % B)) := by
  have hcount : (batches N B).length = (N + B - 1) / B := batches_length N B
  refine ⟨hcount, ?_, ?_, ?_, ?_, ?_, ?_⟩
  · simp only [seed_events_clickhouse, List.countP_cons, List.countP_append,
      countP_submit_flatten, hcount]
    simp [isSubmit, List.countP_cons]
  · intro b hb
    rw [batches_eq] at hb
    obtain ⟨j, hj, rfl⟩ := List.mem_map.mp hb
    rw [List.length_range']
    omega
  · rw [batches_eq, List.map_map]
    have hmap : (List.length ∘ fun j =>
        List.range' (j * B) (min (j * B + B) N - j * B)) =
        (fun j => min (j * B + B) N - j * B) := by
      funext j
      simp [Function.comp, List.length_range']
    rw [hmap, batch_sizes_sum_range N B]
    exact Nat.min_eq_right (ceil_mul_ge N B hB)
  · rw [batches_eq, batch_flatten_range N B]
    rw [Nat.min_eq_right (ceil_mul_ge N B hB), ← List.range_eq_range']
  · intro j hj
    rw [hcount] at hj
    have hjlt : j < ((List.range ((N + B - 1) / B)).map
        (fun j => List.range' (j * B) (min (j * B + B) N - j * B))).length := by
      simp
      omega
    rw [batches_eq, List.getD_eq_getElem _ _ hjlt]
    simp only [List.getElem_map, List.getElem_range, List.length_range']
    have hlt := ceil_pred_mul_lt N B hN hB
    have hmul : (j + 1) * B ≤ (((N + B - 1) / B) - 1) * B :=
      Nat.mul_le_mul_right B (by omega)
    have h1 : (j + 1) * B = j * B + B := by ring
    omega
  · intro hnd
    have hcpos : 0 < (N + B - 1) / B := by
      rcases Nat.eq_zero_or_pos ((N + B - 1) / B) with h0 | h0
      · have hge := ceil_mul_ge N B hB
        rw [h0] at hge
        simp at hge
        omega
      · exact h0
    rw [batches_eq, List.getLast?_eq_getElem?]
    have hlen : ((List.range ((N + B - 1) / B)).map
        (fun j => List.range' (j * B) (min (j * B + B) N - j * B))).length =
        (N + B - 1) / B := by simp
    rw [hlen, List.getElem?_map, List.getElem?_range (by omega)]
    simp only [Option.map_some', List.length_range']
    rw [last_batch_size N B hN hB hnd]

/-- C4 (witness): at `N = 7`, `B = 3` the scheduler produces 3 batches
`[0,1,2], [3,4,5], [6]` with the stated size and coverage properties. -/
theorem scheduler_batch_partition_witness :
    (batches 7 3).length = (7 + 3 - 1) / 3 ∧
    (seed_events_clickhouse 7 3).countP isSubmit = (7 + 3 - 1) / 3 ∧
    (∀ b ∈ batches 7 3, b.length ≤ 3) ∧
    ((batches 7 3).map List.length).sum = 7 ∧
    (batches 7 3).flatten = List.range 7 ∧
    (∀ j, j + 1 < (batches 7 3).length →
      ((batches 7 3).getD j []).length = 3) ∧
    (¬ 3 ∣ 7 → ((batches 7 3).getLast?).map List.length = some (7 % 3)) :=
  scheduler_batch_partition 7 3 (by decide) (by decide)

/-- C2 (counterexample): the claim says the scheduler waits for each
batch's submissions to settle before sleeping the pacing interval.  On
the code, with `N = 2`, `B = 1` (two batches) the trace submits a batch
and immediately sleeps, with the single settle point (`joinAll`, the
executor shutdown) occurring only once, after both batches — not once
per batch. -/
theorem scheduler_no_per_batch_wait_cex :
    seed_events_clickhouse 2 1 =
      [SchedAction.logMsg "Starting event ingestion...",
       SchedAction.submitBatch [0], SchedAction.sleepSec 1,
       SchedAction.submitBatch [1], SchedAction.sleepSec 1,
       SchedAction.joinAll, SchedAction.logMsg "Event ingestion completed"] ∧
    (seed_events_clickhouse 2 1).countP isJoin = 1 ∧
    (batches 2 1).length = 2 := by
  exact ⟨rfl, rfl, rfl⟩

/-- C2 (amended): for every positive batch size, the scheduler submits
each batch to the worker pool and immediately sleeps the 1 s pacing
interval without any settling wait: every batch's submission is directly
followed by the sleep in the trace, the trace contains exactly one
settle point (`joinAll`), and that settle point sits at the end of the
run, after every batch, just before the final log line. -/
theorem scheduler_fire_and_forget (N B : Nat) (hB : 0 < B) :
    (seed_events_clickhouse N B).countP isJoin = 1 ∧
    (∀ b ∈ batches N B, ∃ pre post, seed_events_clickhouse N B =
      pre ++ [SchedAction.submitBatch b, SchedAction.sleepSec 1] ++ post) ∧
    (∃ pre, seed_events_clickhouse N B =
      pre ++ [SchedAction.joinAll,
        SchedAction.logMsg "Event ingestion completed"] ∧
      pre.countP isJoin = 0) := by
  refine ⟨?_, ?_, ?_⟩
  · simp only [seed_events_clickhouse, List.countP_cons, List.countP_append,
      countP_join_flatten]
    simp [isJoin, List.countP_cons]
  · intro b hb
    obtain ⟨s, t, hst⟩ := List.append_of_mem hb
    refine ⟨SchedAction.logMsg "Starting event ingestion..." ::
        ((s.map (fun b =>
          [SchedAction.submitBatch b, SchedAction.sleepSec 1])).flatten),
      ((t.map (fun b =>
          [SchedAction.submitBatch b, SchedAction.sleepSec 1])).flatten) ++
        [SchedAction.joinAll,
         SchedAction.logMsg "Event ingestion completed"], ?_⟩
    rw [seed_events_clickhouse, hst]
    simp [List.map_append, List.flatten_append]
  · refine ⟨SchedAction.logMsg "Starting event ingestion..." ::
        (((batches N B).map (fun b =>
          [SchedAction.submitBatch b, SchedAction.sleepSec 1])).flatten), ?_, ?_⟩
    · rfl
    · simp only [List.countP_cons, countP_join_flatten]
      simp [isJoin]

/-- C2 (amended, witness): at `N = 2`, `B = 1` the amended description
holds, in particular for the first batch `[0]`. -/
theorem scheduler_fire_and_forget_witness :
    0 < 1 ∧
    ((seed_events_clickhouse 2 1).countP isJoin = 1 ∧
     (∀ b ∈ batches 2 1, ∃ pre post, seed_events_clickhouse 2 1 =
       pre ++ [SchedAction.submitBatch b, SchedAction.sleepSec 1] ++ post) ∧
     (∃ pre, seed_events_clickhouse 2 1 =
       pre ++ [SchedAction.joinAll,
         SchedAction.logMsg "Event ingestion completed"] ∧
       pre.countP isJoin = 0)) :=
  ⟨by decide, scheduler_fire_and_forget 2 1 (by decide)⟩

/-- C7: `generate_event` is deterministic in the index: every field other
than the identifier is a pure function of `i` (the embedding is a pure
function, so freedom from side effects is by construction).  Replacing
the identifier of `generate_event u i` with `v` yields exactly
`generate_event v i`, and the fields follow the stated formulas:
`bytes_transferred = 100 + i % 1000`, `duration_ms = 50 + i % 200`,
`status_code = 200 + (i % 3) * 100`, `test_group = "group_" ++ (i % 10)`,
and the source alternates over `["web", "mobile"]` by `i % 2`. -/
theorem generate_event_deterministic (u v : String) (i : Nat) :
    { generate_event u i with event_id := v } = generate_event v i ∧
    (generate_event u i).event_id = u ∧
    (generate_event u i).properties.bytes_transferred = 100 + i % 1000 ∧
    (generate_event u i).properties.duration_ms = 50 + i % 200 ∧
    (generate_event u i).properties.status_code = 200 + (i % 3) * 100 ∧
    (generate_event u i).properties.test_group =
      "group_" ++ toString (i % 10) ∧
    (generate_event u i).source = sources.getD (i % sources.length) "" ∧
    (generate_event u i).source = (if i % 2 = 0 then "web" else "mobile") := by
  refine ⟨rfl, rfl, rfl, rfl, rfl, rfl, rfl, ?_⟩
  rcases Nat.mod_two_eq_zero_or_one i with h | h <;>
    simp [generate_event, sources, h]

/-- C10: every generated event has the constant event name `"gpu_time"`
(the `event_types` pool is a singleton) and the constant external
customer identifier `"cus_loadtest_5"`, independently of the index. -/
theorem generate_event_constant_name_customer (u : String) (i : Nat) :
    (generate_event u i).event_name = "gpu_time" ∧
    (generate_event u i).external_customer_id = "cus_loadtest_5" := by
  constructor
  · show event_types.getD (i % event_types.length) "" = "gpu_time"
    simp [event_types, Nat.mod_one]
  · rfl

lemma runQueriesFrom_no_sleep (res : Nat → Except String String) :
    ∀ (fuel q : Nat), (runQueriesFrom res q fuel).countP isSleep = 0 := by
  intro fuel
  induction fuel with
  | zero => intro q; rfl
  | succ fuel ih =>
    intro q
    cases hres : res q with
    | ok s => simp [runQueriesFrom, hres, List.countP_cons, ih (q + 1), isSleep]
    | error e => simp [runQueriesFrom, hres, List.countP_cons, isSleep]

lemma monitorCycle_sleep_count (res : Nat → Except String String) :
    (monitorCycle res).countP isSleep = 1 := by
  simp only [monitorCycle, List.countP_append, runQueriesFrom_no_sleep]
  simp [List.countP_cons, isSleep]

lemma monitor_queries_sleep_count (res : Nat → Nat → Except String String) :
    ∀ n : Nat, (monitor_queries res n).countP isSleep = n := by
  intro n
  induction n with
  | zero => rfl
  | succ n ih =>
    simp only [monitor_queries, List.countP_append, ih, monitorCycle_sleep_count]

lemma runQueriesFrom_all_ok (res : Nat → Except String String)
    (s : Nat → String) : ∀ (fuel q : Nat),
    (∀ t, t < fuel → res (q + t) = .ok (s (q + t))) →
    runQueriesFrom res q fuel =
      (List.range fuel).map (fun t => MonAction.logResult (q + t)
        (queryLabels.getD (q + t) "" ++ s (q + t))) := by
  intro fuel
  induction fuel with
  | zero => intro q _; rfl
  | succ fuel ih =>
    intro q h
    have h0 : res q = .ok (s q) := by simpa using h 0 (by omega)
    have hrest : ∀ t, t < fuel → res (q + 1 + t) = .ok (s (q + 1 + t)) := by
      intro t ht
      have e : q + 1 + t = q + (t + 1) := by omega
      rw [e]
      exact h (t + 1) (by omega)
    have hfun : (fun t => MonAction.logResult (q + 1 + t)
        (queryLabels.getD (q + 1 + t) "" ++ s (q + 1 + t))) =
        ((fun t => MonAction.logResult (q + t)
          (queryLabels.getD (q + t) "" ++ s (q + t))) ∘ Nat.succ) := by
      funext t
      have e : q + 1 + t = q + (t + 1) := by omega
      simp [Function.comp, e]
    simp only [runQueriesFrom, h0, ih (q + 1) hrest]
    rw [List.range_succ_eq_map, List.map_cons, List.map_map, hfun]
    simp

lemma runQueriesFrom_err (res : Nat → Except String String)
    (s : Nat → String) (e : String) : ∀ (j fuel q : Nat), j < fuel →
    (∀ t, t < j → res (q + t) = .ok (s (q + t))) →
    res (q + j) = .error e →
    runQueriesFrom res q fuel =
      ((List.range j).map (fun t => MonAction.logResult (q + t)
        (queryLabels.getD (q + t) "" ++ s (q + t)))) ++
        [MonAction.logError ("Failed to execute queries: " ++ e)] := by
  intro j
  induction j with
  | zero =>
    intro fuel q hjf hok herr
    cases fuel with
    | zero => omega
    | succ fuel =>
      have h0 : res q = .error e := by simpa using herr
      simp [runQueriesFrom, h0]
  | succ j ih =>
    intro fuel q hjf hok herr
    cases fuel with
    | zero => omega
    | succ fuel =>
      have h0 : res q = .ok (s q) := by simpa using hok 0 (by omega)
      have hrest : ∀ t, t < j → res (q + 1 + t) = .ok (s (q + 1 + t)) := by
        intro t ht
        have eq1 : q + 1 + t = q + (t + 1) := by omega
        rw [eq1]
        exact hok (t + 1) (by omega)
      have herr2 : res (q + 1 + j) = .error e := by
        have eq1 : q + 1 + j = q + (j + 1) := by omega
        rw [eq1]
        exact herr
      have hfun : (fun t => MonAction.logResult (q + 1 + t)
          (queryLabels.getD (q + 1 + t) "" ++ s (q + 1 + t))) =
          ((fun t => MonAction.logResult (q + t)
            (queryLabels.getD (q + t) "" ++ s (q + t))) ∘ Nat.succ) := by
        funext t
        have eq1 : q + 1 + t = q + (t + 1) := by omega
        simp [Function.comp, eq1]
      simp only [runQueriesFrom, h0, ih fuel (q + 1) (by omega) hrest herr2]
      rw [List.range_succ_eq_map, List.map_cons, List.map_map, hfun]
      simp

lemma monitorCycle_all_ok (res : Nat → Except String String)
    (s : Nat → String) (h : ∀ q, q < 5 → res q = .ok (s q)) :
    monitorCycle res =
      (List.range 5).map (fun q => MonAction.logResult q
        (queryLabels.getD q "" ++ s q)) ++
      [MonAction.sleep QUERY_INTERVAL] := by
  rw [monitorCycle, runQueriesFrom_all_ok res s 5 0 (by intro t ht; simpa using h t ht)]
  simp


/-- C8: any exception raised by a query inside a monitor cycle is caught:
the cycle emits exactly one error log, which carries the exception
detail, and still ends with the same fixed `QUERY_INTERVAL` sleep; the
loop keeps running — a trace of `n` cycles always contains exactly `n`
sleeps, whatever the oracles do — and every cycle whose five queries all
succeed (before or after the failing cycle `k`) logs its five results
and sleeps normally, unaffected by the failure in cycle `k`. -/
theorem monitor_failure_isolation (res : Nat → Nat → Except String String)
    (n k j : Nat) (e : String) (s : Nat → String)
    (hk : k < n) (hj : j < 5)
    (hok : ∀ t, t < j → res k t = .ok (s t))
    (herr : res k j = .error e) :
    (monitor_queries res n).countP isSleep = n ∧
    (monitorCycle (res k)).countP isLogError = 1 ∧
    (monitorCycle (res k)).getLast? = some (MonAction.sleep QUERY_INTERVAL) ∧
    MonAction.logError ("Failed to execute queries: " ++ e) ∈
      monitorCycle (res k) ∧
    (∀ c (sc : Nat → String), (∀ q, q < 5 → res c q = .ok (sc q)) →
      monitorCycle (res c) =
        (List.range 5).map (fun q => MonAction.logResult q
          (queryLabels.getD q "" ++ sc q)) ++
        [MonAction.sleep QUERY_INTERVAL]) := by
  have hok' : ∀ t, t < j → res k (0 + t) = .ok (s (0 + t)) := by
    intro t ht
    simpa using hok t ht
  have herr' : res k (0 + j) = .error e := by simpa using herr
  have hcyc : monitorCycle (res k) =
      ((List.range j).map (fun t => MonAction.logResult t
        (queryLabels.getD t "" ++ s t))) ++
      [MonAction.logError ("Failed to execute queries: " ++ e),
       MonAction.sleep QUERY_INTERVAL] := by
    rw [monitorCycle, runQueriesFrom_err (res k) s e j 5 0 hj hok' herr']
    simp
  refine ⟨monitor_queries_sleep_count res n, ?_, ?_, ?_, ?_⟩
  · rw [hcyc]
    simp [List.countP_append, List.countP_cons, isLogError, List.countP_eq_zero]
  · rw [hcyc]
    simp [List.getLast?_append]
  · rw [hcyc]
    simp
  · intro c sc h
    exact monitorCycle_all_ok (res c) sc h

/-- C8 (witness): an oracle that succeeds everywhere except query 1 of
cycle 2, over 10 cycles: all 10 sleeps happen, the failing cycle logs
one error carrying the detail and then sleeps, and healthy cycles log
all five results. -/
theorem monitor_failure_isolation_witness :
    (monitor_queries (fun c q =>
        if c = 2 ∧ q = 1 then Except.error "boom" else Except.ok "rows")
      10).countP isSleep = 10 ∧
    (monitorCycle ((fun c q =>
        if c = 2 ∧ q = 1 then Except.error "boom" else Except.ok "rows")
      2)).countP isLogError = 1 ∧
    (monitorCycle ((fun c q =>
        if c = 2 ∧ q = 1 then Except.error "boom" else Except.ok "rows")
      2)).getLast? = some (MonAction.sleep QUERY_INTERVAL) ∧
    MonAction.logError ("Failed to execute queries: " ++ "boom") ∈
      monitorCycle ((fun c q =>
        if c = 2 ∧ q = 1 then Except.error "boom" else Except.ok "rows") 2) ∧
    (∀ c (sc : Nat → String), (∀ q, q < 5 →
        (fun c q => if c = 2 ∧ q = 1 then Except.error "boom"
          else Except.ok "rows") c q = .ok (sc q)) →
      monitorCycle ((fun c q =>
          if c = 2 ∧ q = 1 then Except.error "boom" else Except.ok "rows") c) =
        (List.range 5).map (fun q => MonAction.logResult q
          (queryLabels.getD q "" ++ sc q)) ++
        [MonAction.sleep QUERY_INTERVAL]) :=
  monitor_failure_isolation
    (fun c q => if c = 2 ∧ q = 1 then Except.error "boom" else Except.ok "rows")
    10 2 1 "boom" (fun _ => "rows") (by decide) (by decide)
    (by intro t ht; interval_cases t; rfl) rfl

/-- C9: within one cycle the five queries execute in the fixed order
given by `queryLabels` (storage sum/count, ingestion lag, grouped
duration sums, filtered event count, duration avg/max); if the queries
before index `j` succeed and query `j` raises, the cycle's trace is the
result logs of queries `0..j-1` in order, then the single error log,
then the sleep — queries after `j` are neither executed nor logged (every
logged result of the cycle has index `< j`) — and the next cycle starts
over from query 0 with all five queries. -/
theorem monitor_cycle_abort (r : Nat → Except String String)
    (s : Nat → String) (j : Nat) (e : String) (hj : j < 5)
    (hok : ∀ t, t < j → r t = .ok (s t)) (herr : r j = .error e) :
    queryLabels =
      ["Storage Query Result: ", "Ingestion Lag Query Result: ",
       "Other Query Result: ", "Other Query Result: ",
       "Duration Query Result: "] ∧
    monitorCycle r =
      ((List.range j).map (fun t => MonAction.logResult t
        (queryLabels.getD t "" ++ s t))) ++
      [MonAction.logError ("Failed to execute queries: " ++ e),
       MonAction.sleep QUERY_INTERVAL] ∧
    (∀ q msg, MonAction.logResult q msg ∈ monitorCycle r → q < j) ∧
    (∀ res : Nat → Nat → Except String String, ∀ n : Nat,
      monitor_queries res (n + 1) =
        monitor_queries res n ++
          (runQueriesFrom (res n) 0 5 ++ [MonAction.sleep QUERY_INTERVAL])) := by
  have hok' : ∀ t, t < j → r (0 + t) = .ok (s (0 + t)) := by
    intro t ht
    simpa using hok t ht
  have herr' : r (0 + j) = .error e := by simpa using herr
  have hcyc : monitorCycle r =
      ((List.range j).map (fun t => MonAction.logResult t
        (queryLabels.getD t "" ++ s t))) ++
      [MonAction.logError ("Failed to execute queries: " ++ e),
       MonAction.sleep QUERY_INTERVAL] := by
    rw [monitorCycle, runQueriesFrom_err r s e j 5 0 hj hok' herr']
    simp
  refine ⟨rfl, hcyc, ?_, ?_⟩
  · intro q msg hm
    rw [hcyc] at hm
    rcases List.mem_append.mp hm with hmm | hmm
    · obtain ⟨t, ht, hteq⟩ := List.mem_map.mp hmm
      injection hteq with h1 h2
      have ht' := List.mem_range.mp ht
      omega
    · simp at hmm
  · intro res n
    simp [monitor_queries, monitorCycle]

/-- C9 (witness): queries 0 and 1 succeed, query 2 raises: the cycle logs
the two results in order, then the error, then sleeps; no logged result
has index 2 or more. -/
theorem monitor_cycle_abort_witness :
    queryLabels =
      ["Storage Query Result: ", "Ingestion Lag Query Result: ",
       "Other Query Result: ", "Other Query Result: ",
       "Duration Query Result: "] ∧
    monitorCycle (fun q => if q < 2 then Except.ok "rows"
        else Except.error "boom") =
      ((List.range 2).map (fun t => MonAction.logResult t
        (queryLabels.getD t "" ++ (fun _ => "rows") t))) ++
      [MonAction.logError ("Failed to execute queries: " ++ "boom"),
       MonAction.sleep QUERY_INTERVAL] ∧
    (∀ q msg, MonAction.logResult q msg ∈
      monitorCycle (fun q => if q < 2 then Except.ok "rows"
        else Except.error "boom") → q < 2) ∧
    (∀ res : Nat → Nat → Except String String, ∀ n : Nat,
      monitor_queries res (n + 1) =
        monitor_queries res n ++
          (runQueriesFrom (res n) 0 5 ++ [MonAction.sleep QUERY_INTERVAL])) :=
  monitor_cycle_abort
    (fun q => if q < 2 then Except.ok "rows" else Except.error "boom")
    (fun _ => "rows") 2 "boom" (by decide)
    (by intro t ht; interval_cases t <;> rfl) rfl
